import Mathlib

/-!
Shallow embedding of the plan-generation and validation pipeline of the
ai-fitness-app backend, together with theorems settling the specification
claims about it.

The embedding follows the Python sources:
  * `ai-fitness-app/backend/meal_plan_generator.py` (mock meal-plan generator),
  * `ai-fitness-app/backend/schemas.py` (pydantic data model),
  * `backend/ai_meal_service.py` (versioned persistence of weekly meal plans),
  * `backend/ai_workout_service.py` (external-plan validation and PDF renderer).

Python `int` is modelled as `ℤ`, Python `float` values arising from true
division as `ℚ`, `int(x)` (truncation toward zero) as `pyInt`, and code that
can raise as `Except String`.  Randomness (`random.uniform(-v, v)`) is
modelled by an injected draw stream `draws : ℕ → ℚ`, consumed four values per
meal in source order (calories, protein, carbs, fat).
-/

deriving instance DecidableEq for Except

namespace FitnessApp

/-- Python `int(x)` on a rational: truncation toward zero. -/
def pyInt (q : ℚ) : ℤ := if q < 0 then ⌈q⌉ else ⌊q⌋

/-- Python true division `a / b`, raising `ZeroDivisionError` on a zero
divisor. -/
def pydiv (a b : ℚ) : Except String ℚ :=
  if b = 0 then .error "ZeroDivisionError: division by zero" else .ok (a / b)

/-- A Python `for` loop that builds a list and can raise: stops at the first
error. -/
def mapOrErr (f : α → Except String β) : List α → Except String (List β)
  | [] => .ok []
  | x :: xs =>
    match f x with
    | .error e => .error e
    | .ok y =>
      match mapOrErr f xs with
      | .error e => .error e
      | .ok ys => .ok (y :: ys)

/-- Case-insensitive view of a string (Python `s.lower()`), as a character
list so that Python's substring test `a in b` can be read as `List.IsInfix`. -/
def strLower (s : String) : List Char := s.data.map Char.toLower

/-- Python slicing `s[:n]`: the first `n` characters. -/
def pyTrunc (s : String) (n : ℕ) : String := ⟨s.data.take n⟩

/-! ## Data model (`ai-fitness-app/backend/schemas.py`) -/

/-- `schemas.MealPlanPreferences` (no validation constraints beyond types). -/
structure MealPlanPreferences where
  mealsPerDay : ℤ
  cookingTime : String
  dietStyle : String
  cuisine : String
  foodsLike : List String := []
  foodsDislike : List String := []
  allergies : List String := []
  budgetLevel : String := ""
deriving DecidableEq, Repr

/-- `schemas.MealPlanTargets`. -/
structure MealPlanTargets where
  calories : ℤ
  protein : ℤ
  carbs : ℤ
  fat : ℤ
deriving DecidableEq, Repr

/-- `schemas.Ingredient`. -/
structure Ingredient where
  name : String
  amount : String
deriving DecidableEq, Repr

/-- `schemas.Meal`. `substitutions` is `Option` because
`generate_substitutions` returns `None` for an empty suggestion list. -/
structure Meal where
  name : String
  mealType : String
  calories : ℤ
  protein : ℤ
  carbs : ℤ
  fat : ℤ
  ingredients : List Ingredient
  instructions : List String
  substitutions : Option (List String)
deriving DecidableEq, Repr

/-- `schemas.DayPlan`. -/
structure DayPlan where
  day : ℤ
  targetCalories : ℤ
  targetProtein : ℤ
  targetCarbs : ℤ
  targetFat : ℤ
  actualCalories : ℤ
  actualProtein : ℤ
  actualCarbs : ℤ
  actualFat : ℤ
  meals : List Meal
deriving DecidableEq, Repr

/-- `schemas.ShoppingListItem`. -/
structure ShoppingListItem where
  name : String
  amount : String
deriving DecidableEq, Repr

/-- `schemas.ShoppingListCategory`. -/
structure ShoppingListCategory where
  category : String
  items : List ShoppingListItem
deriving DecidableEq, Repr

/-- `schemas.MealPlanData` (the `generatedAt` timestamp is injected since
`datetime.now()` is a side effect). -/
structure MealPlanData where
  preferences : MealPlanPreferences
  days : List DayPlan
  shoppingList : List ShoppingListCategory
  generatedAt : String
deriving DecidableEq, Repr

/-! ## Ingredient selection (`meal_plan_generator.generate_ingredients`) -/

/-- The static `base_ingredients` table of `generate_ingredients`. -/
def base_ingredients : List (String × List (String × String)) :=
  [("Breakfast",
    [("Eggs", "2 pieces"), ("Whole grain bread", "2 slices"),
     ("Greek yogurt", "150g")]),
   ("Lunch",
    [("Chicken breast", "150g"), ("Brown rice", "100g"),
     ("Mixed vegetables", "200g")]),
   ("Dinner",
    [("Salmon", "150g"), ("Sweet potato", "200g"), ("Broccoli", "150g")]),
   ("Snack",
    [("Apple", "1 medium"), ("Almonds", "30g"),
     ("Protein shake", "1 serving")]),
   ("Snack 2",
    [("Banana", "1 medium"), ("Peanut butter", "1 tbsp")])]

/-- Keep an item iff its name is not a case-insensitive match of a disliked
food and contains no allergy token as a case-insensitive substring
(the two `continue` guards of the filtering loop). -/
def keepIngredient (dislikes allergies : List String) (p : String × String) :
    Bool :=
  !(decide (strLower p.1 ∈ dislikes.map strLower)) &&
    !(allergies.any fun a => decide (strLower a <:+: strLower p.1))

/-- The filtering loop of `generate_ingredients`: keep the items passing both
guards, wrap them as `Ingredient`, and truncate to 5 (`filtered[:5]`),
generalized over the looked-up catalog slice. -/
def filterIngredients (items : List (String × String))
    (dislikes allergies : List String) : List Ingredient :=
  (((items.filter (keepIngredient dislikes allergies)).map
      fun p => Ingredient.mk p.1 p.2).take 5)

/-- `generate_ingredients`: look up the meal type in `base_ingredients`
(defaulting to the `"Lunch"` bucket, as `base_ingredients.get(meal_type,
base_ingredients["Lunch"])` does) and filter by the preferences. -/
def generate_ingredients (meal_type : String)
    (preferences : MealPlanPreferences) : List Ingredient :=
  let ingredients_list :=
    match base_ingredients.lookup meal_type with
    | some l => l
    | none =>
      match base_ingredients.lookup "Lunch" with
      | some l => l
      | none => []
  filterIngredients ingredients_list preferences.foodsDislike
    preferences.allergies

/-- `generate_instructions`. -/
def generate_instructions (_meal_type : String)
    (preferences : MealPlanPreferences) : List String :=
  let time_desc :=
    match preferences.cookingTime with
    | "10-15" => "Quick"
    | "20-30" => "Moderate"
    | "45+" => "Detailed"
    | _ => "Moderate"
  ["Prepare all ingredients according to " ++ preferences.cuisine ++ " style",
   "Follow " ++ time_desc ++ " cooking method (" ++ preferences.cookingTime
     ++ " minutes)",
   "Season to taste and serve hot"]

/-- `generate_substitutions` (returns `None` for an empty suggestion list). -/
def generate_substitutions (_meal_type : String)
    (preferences : MealPlanPreferences) : Option (List String) :=
  let subs :=
    (if preferences.dietStyle = "Vegetarian" then
      ["Replace meat with tofu or tempeh"] else []) ++
    (if preferences.dietStyle = "Low-carb" then
      ["Replace grains with cauliflower rice"] else []) ++
    (if preferences.cuisine = "Lebanese" then
      ["Can substitute with other Middle Eastern options"] else [])
  if subs = [] then none else some subs

/-! ## Single-day generation (`meal_plan_generator.generate_single_day`) -/

/-- The meal-type list of `generate_single_day`: three fixed meals, a
`"Snack"` when `mealsPerDay >= 4` and a `"Snack 2"` when `mealsPerDay >= 5`. -/
def mealTypesFor (mealsPerDay : ℤ) : List String :=
  ["Breakfast", "Lunch", "Dinner"] ++
    (if 4 ≤ mealsPerDay then ["Snack"] else []) ++
    (if 5 ≤ mealsPerDay then ["Snack 2"] else [])

/-- One iteration of the meal loop, before normalization: the per-meal share
of each macro is `target / mealsPerDay` (raising `ZeroDivisionError` when
`mealsPerDay == 0`), perturbed by the injected uniform draw and truncated
with `int(...)`.  Meal `i` consumes draws `4*i .. 4*i+3`. -/
def genRawMeal (day_number : ℤ) (preferences : MealPlanPreferences)
    (targets : MealPlanTargets) (draws : ℕ → ℚ) (i : ℕ) (meal_type : String) :
    Except String Meal :=
  if (preferences.mealsPerDay : ℚ) = 0 then
    .error "ZeroDivisionError: division by zero"
  else
    let target_cal_per_meal :=
      (targets.calories : ℚ) / (preferences.mealsPerDay : ℚ)
    let target_protein_per_meal :=
      (targets.protein : ℚ) / (preferences.mealsPerDay : ℚ)
    let target_carbs_per_meal :=
      (targets.carbs : ℚ) / (preferences.mealsPerDay : ℚ)
    let target_fat_per_meal :=
      (targets.fat : ℚ) / (preferences.mealsPerDay : ℚ)
    .ok
      { name := meal_type ++ " Option " ++ toString day_number
        mealType := meal_type
        calories := pyInt (target_cal_per_meal * (1 + draws (4 * i)))
        protein := pyInt (target_protein_per_meal * (1 + draws (4 * i + 1)))
        carbs := pyInt (target_carbs_per_meal * (1 + draws (4 * i + 2)))
        fat := pyInt (target_fat_per_meal * (1 + draws (4 * i + 3)))
        ingredients := generate_ingredients meal_type preferences
        instructions := generate_instructions meal_type preferences
        substitutions := generate_substitutions meal_type preferences }

/-- The pure value produced by `genRawMeal` when `mealsPerDay ≠ 0`. -/
def rawMeal (day_number : ℤ) (preferences : MealPlanPreferences)
    (targets : MealPlanTargets) (draws : ℕ → ℚ) (i : ℕ) (meal_type : String) :
    Meal :=
  { name := meal_type ++ " Option " ++ toString day_number
    mealType := meal_type
    calories := pyInt ((targets.calories : ℚ) / (preferences.mealsPerDay : ℚ)
      * (1 + draws (4 * i)))
    protein := pyInt ((targets.protein : ℚ) / (preferences.mealsPerDay : ℚ)
      * (1 + draws (4 * i + 1)))
    carbs := pyInt ((targets.carbs : ℚ) / (preferences.mealsPerDay : ℚ)
      * (1 + draws (4 * i + 2)))
    fat := pyInt ((targets.fat : ℚ) / (preferences.mealsPerDay : ℚ)
      * (1 + draws (4 * i + 3)))
    ingredients := generate_ingredients meal_type preferences
    instructions := generate_instructions meal_type preferences
    substitutions := generate_substitutions meal_type preferences }

/-- The normalization body: rescale every macro of a meal by `scale` and
truncate with `int(...)`. -/
def scaleMeal (scale : ℚ) (m : Meal) : Meal :=
  { m with
    calories := pyInt ((m.calories : ℚ) * scale)
    protein := pyInt ((m.protein : ℚ) * scale)
    carbs := pyInt ((m.carbs : ℚ) * scale)
    fat := pyInt ((m.fat : ℚ) * scale) }

/-- `generate_single_day`: generate one meal per entry of the meal-type list,
then, when the summed calories are nonzero, rescale every meal by
`targets.calories / total_calories` and recompute the four totals; the
returned `DayPlan` carries the targets and the (re)computed actual totals. -/
def generate_single_day (day_number : ℤ)
    (preferences : MealPlanPreferences) (targets : MealPlanTargets)
    (draws : ℕ → ℚ) : Except String DayPlan :=
  match mapOrErr
      (fun p => genRawMeal day_number preferences targets draws p.1 p.2)
      (mealTypesFor preferences.mealsPerDay).enum with
  | .error e => .error e
  | .ok rawMeals =>
    let total_calories := (rawMeals.map Meal.calories).sum
    if total_calories ≠ 0 then
      let scale_factor := (targets.calories : ℚ) / (total_calories : ℚ)
      let meals := rawMeals.map (scaleMeal scale_factor)
      .ok
        { day := day_number
          targetCalories := targets.calories
          targetProtein := targets.protein
          targetCarbs := targets.carbs
          targetFat := targets.fat
          actualCalories := (meals.map Meal.calories).sum
          actualProtein := (meals.map Meal.protein).sum
          actualCarbs := (meals.map Meal.carbs).sum
          actualFat := (meals.map Meal.fat).sum
          meals := meals }
    else
      .ok
        { day := day_number
          targetCalories := targets.calories
          targetProtein := targets.protein
          targetCarbs := targets.carbs
          targetFat := targets.fat
          actualCalories := total_calories
          actualProtein := (rawMeals.map Meal.protein).sum
          actualCarbs := (rawMeals.map Meal.carbs).sum
          actualFat := (rawMeals.map Meal.fat).sum
          meals := rawMeals }

/-! ## Shopping list (`meal_plan_generator.generate_shopping_list`) -/

/-- Record one observed `(name, amount)` pair in the insertion-ordered
`all_ingredients` map: append the amount to the name's list, creating the
entry on first sight (Python dict insertion-order semantics). -/
def addAmount (acc : List (String × List String)) (name amount : String) :
    List (String × List String) :=
  if acc.any (fun p => p.1 = name) then
    acc.map fun p => if p.1 = name then (p.1, p.2 ++ [amount]) else p
  else
    acc ++ [(name, [amount])]

/-- The collection loop of `generate_shopping_list`: walk every ingredient of
every meal of every day. -/
def collectIngredients (days : List DayPlan) : List (String × List String) :=
  days.foldl
    (fun acc day =>
      day.meals.foldl
        (fun acc meal =>
          meal.ingredients.foldl
            (fun acc ing => addAmount acc ing.name ing.amount) acc)
        acc)
    []

/-- The static category-keyword table of `generate_shopping_list`, in source
order (first match wins). -/
def shoppingCategories : List (String × List String) :=
  [("Protein", ["chicken", "beef", "pork", "fish", "salmon", "tuna", "eggs",
    "tofu", "tempeh"]),
   ("Vegetables", ["broccoli", "spinach", "carrots", "bell pepper", "tomato",
    "onion", "garlic", "vegetables"]),
   ("Carbs", ["rice", "pasta", "bread", "potato", "quinoa", "oats"]),
   ("Dairy", ["milk", "cheese", "yogurt", "butter"]),
   ("Pantry", ["oil", "spices", "salt", "pepper", "flour", "sugar"])]

/-- Python `total_amount = "1x" if len(amounts) > 0 else amounts[0]`.
The `else` branch is dead code in the source (every recorded name has at
least one amount; reaching it would raise `IndexError` on the empty list),
so the placeholder is produced for every ingredient. -/
def combineAmounts (amounts : List String) : String :=
  if amounts.length > 0 then "1x" else amounts.headD ""

/-- The name of the first category whose keyword list has a case-insensitive
substring match against the ingredient name, `"Other"` if none matches. -/
def categoryFor (name : String) : String :=
  match shoppingCategories.find?
      (fun c => c.2.any fun keyword => decide (strLower keyword <:+: strLower name)) with
  | some c => c.1
  | none => "Other"

/-- Append an item to the bucket of the given category name. -/
def addToBucket (buckets : List (String × List ShoppingListItem))
    (cat : String) (item : ShoppingListItem) :
    List (String × List ShoppingListItem) :=
  buckets.map fun b => if b.1 = cat then (b.1, b.2 ++ [item]) else b

/-- `generate_shopping_list`: collect all ingredients with their observed
amounts, drop each into the first matching category bucket (or `"Other"`),
and keep the non-empty buckets in fixed table order with `"Other"` last. -/
def generate_shopping_list (days : List DayPlan)
    (_preferences : MealPlanPreferences) : List ShoppingListCategory :=
  let all_ingredients := collectIngredients days
  let initialBuckets : List (String × List ShoppingListItem) :=
    (shoppingCategories.map fun c => (c.1, [])) ++ [("Other", [])]
  let categorized := all_ingredients.foldl
    (fun buckets p =>
      addToBucket buckets (categoryFor p.1)
        { name := p.1, amount := combineAmounts p.2 })
    initialBuckets
  (categorized.filter fun b => !b.2.isEmpty).map
    fun b => { category := b.1, items := b.2 }

/-! ## Whole-plan generation (`meal_plan_generator.generate_meal_plan`) -/

/-- `generate_meal_plan`: one `DayPlan` per day number `1 .. duration`
(Python `range(1, duration + 1)`), then the consolidated shopping list.
The per-day draw streams and the `datetime.now()` timestamp are injected. -/
def generate_meal_plan (preferences : MealPlanPreferences)
    (targets : MealPlanTargets) (duration : ℕ)
    (dayDraws : ℕ → ℕ → ℚ) (now : String) : Except String MealPlanData :=
  match mapOrErr
      (fun day_num =>
        generate_single_day ((day_num : ℕ) : ℤ) preferences targets
          (dayDraws day_num))
      (List.range' 1 duration) with
  | .error e => .error e
  | .ok days =>
    .ok
      { preferences := preferences
        days := days
        shoppingList := generate_shopping_list days preferences
        generatedAt := now }

/-! ## Versioned persistence (`backend/ai_meal_service.py`) -/

/-- A row of the `mealplans` table, restricted to the columns the versioning
logic touches (`backend/models.py`: `version = Column(Integer, default=1)`,
`is_active = Column(Boolean, default=True)`). -/
structure MealPlanRecord where
  user_id : ℤ
  is_active : Bool
  version : ℤ
  plan_json : String
deriving DecidableEq, Repr

/-- The persistence step of `generate_and_save_weekly_meal_plan`:
`db.query(MealPlan).filter(user_id == user.id).update({"is_active": False})`
followed by inserting the new row with `is_active=True, version=1`.  The
database is modelled as the ordered list of inserted rows. -/
def save_weekly_meal_plan (db : List MealPlanRecord) (user_id : ℤ)
    (plan_json : String) : List MealPlanRecord :=
  (db.map fun r =>
    if r.user_id = user_id then { r with is_active := false } else r) ++
    [{ user_id := user_id, is_active := true, version := 1,
       plan_json := plan_json }]

/-! ## External-plan validation (`backend/ai_workout_service.py`) -/

/-- A JSON-like tree, the duck-typed payload decoded from the black-box
generator (`json.loads` output). Numbers are restricted to the integers,
which is all the validator compares against. -/
inductive Json where
  | null : Json
  | bool : Bool → Json
  | num : ℤ → Json
  | str : String → Json
  | arr : List Json → Json
  | obj : List (String × Json) → Json

namespace Json

/-- Python `d.get(key)` on a dict (`None` when absent or not a dict). -/
def get? : Json → String → Option Json
  | .obj fields, key => fields.lookup key
  | _, _ => none

/-- Python truthiness, for the `x or y` defaulting idiom. -/
def truthy : Json → Bool
  | .null => false
  | .bool b => b
  | .num n => n ≠ 0
  | .str s => s ≠ ""
  | .arr l => !l.isEmpty
  | .obj f => !f.isEmpty

/-- Python `isinstance(x, dict)`. -/
def isObj : Json → Bool
  | .obj _ => true
  | _ => false

/-- Python `v = d.get(key)` followed by `isinstance(v, list)`: the array
under a key, `none` when the key is absent or its value is not an array. -/
def getArr? (j : Json) (key : String) : Option (List Json) :=
  match j.get? key with
  | some (.arr l) => some l
  | _ => none

/-- The check `week.get("week_number") != 1` (inverted). -/
def isNumOne : Option Json → Bool
  | some (.num 1) => true
  | _ => false

end Json

/-- Python `d.get(key) or dflt`. -/
def jsonGetOr (j : Json) (key : String) (dflt : Json) : Json :=
  match j.get? key with
  | some v => if v.truthy then v else dflt
  | none => dflt

/-- The per-exercise loop of `_schema_min_validate`: each exercise must be
an object (`isinstance(ex, dict)`) whose `substitutions` value is an array
of length at least 2. -/
def validateExercises : List Json → Except String Unit
  | [] => .ok ()
  | ex :: rest =>
    if !ex.isObj then .error "Each exercise must be an object."
    else
      match ex.getArr? "substitutions" with
      | some subs =>
        if subs.length < 2 then
          .error "Each exercise must include at least 2 substitutions."
        else
          validateExercises rest
      | none => .error "Each exercise must include at least 2 substitutions."

/-- The per-day loop of `_schema_min_validate`: each day must be an object
with a non-empty `exercises` array whose entries pass the exercise check. -/
def validateDays : List Json → Except String Unit
  | [] => .ok ()
  | d :: rest =>
    if !d.isObj then .error "Each day must be an object."
    else
      match d.getArr? "exercises" with
      | some exercises =>
        if exercises.isEmpty then
          .error "Each day.exercises must be a non-empty array."
        else
          match validateExercises exercises with
          | .error e => .error e
          | .ok () => validateDays rest
      | none => .error "Each day.exercises must be a non-empty array."

/-- `_schema_min_validate`: the minimal structural gate run over the decoded
generator output before it is trusted, raising `ValueError` (modelled as
`Except.error`) on the first violated check, in source order. -/
def schema_min_validate (plan : Json) : Except String Unit :=
  if !plan.isObj then .error "AI output must be a JSON object."
  else if (plan.get? "meta").isNone || (plan.get? "weeks").isNone then
    .error "AI output schema mismatch: missing meta/weeks."
  else
    match plan.getArr? "weeks" with
    | some [week] =>
      if !week.isObj || !(Json.isNumOne (week.get? "week_number")) then
        .error "Week number must be 1 for weekly plan."
      else
        match week.getArr? "days" with
        | some days =>
          if days.isEmpty then
            .error "AI week.days must be a non-empty array."
          else
            validateDays days
        | none => .error "AI week.days must be a non-empty array."
    | _ => .error "AI must return exactly 1 week in weeks[]."

/-- How `generate_weekly_workout_plan` reads the day list back out for its
day-count check: `week = (data.get("weeks") or [{}])[0]`;
`days = week.get("days") or []`. -/
def gateDays (data : Json) : List Json :=
  let weeksJ := jsonGetOr data "weeks" (.arr [.obj []])
  let week :=
    match weeksJ with
    | .arr (w :: _) => w
    | _ => .obj []
  match jsonGetOr week "days" (.arr []) with
  | .arr days => days
  | _ => []

/-- The validation portion of `generate_weekly_workout_plan`: run
`_schema_min_validate`, then reject unless the returned day count equals the
requested `days_per_week`; on success the candidate flows on unchanged. -/
def validate_workout_plan (data : Json) (days_per_week : ℕ) :
    Except String Json :=
  match schema_min_validate data with
  | .error e => .error e
  | .ok () =>
    if (gateDays data).length ≠ days_per_week then
      .error "AI must return exactly the requested number of training days."
    else
      .ok data

/-! ## PDF rendering (`workout_plan_json_to_pdf_bytes`) -/

/-- `reportlab.lib.units.cm` in points: `72 / 2.54`. -/
def cmPt : ℚ := 3600 / 127

/-- A4 page height in points (297 mm). -/
def pageH : ℚ := 29.7 * cmPt

/-- The renderer's cursor state: current vertical position and page index. -/
structure PdfState where
  y : ℚ
  page : ℕ
deriving DecidableEq, Repr

/-- One `c.drawString` call as observed output: the page it lands on, the
vertical cursor at draw time and the drawn text. -/
structure DrawEvent where
  page : ℕ
  y : ℚ
  text : String
deriving DecidableEq, Repr

/-- The body of `workout_plan_json_to_pdf_bytes` interleaves calls of its
`line(txt, size, bold, gap)` helper with direct cursor drops (`y -= d`);
font size and boldness do not affect the cursor logic and are omitted. -/
inductive RenderOp where
  | line : String → ℚ → RenderOp
  | space : ℚ → RenderOp
deriving DecidableEq, Repr

/-- The `line` helper: if the cursor has fallen below the 2 cm bottom
margin, start a new page (`c.showPage()`) and reset the cursor to the top
margin `H - 1.6*cm`; then draw the text truncated to 1200 characters
(`(txt or "")[:1200]`) at the cursor and advance by `gap`. -/
def lineStep (st : PdfState) (txt : String) (gap : ℚ) :
    PdfState × DrawEvent :=
  let (page, y) :=
    if st.y < 2 * cmPt then (st.page + 1, pageH - 1.6 * cmPt)
    else (st.page, st.y)
  (⟨y - gap, page⟩, ⟨page, y, pyTrunc txt 1200⟩)

/-- Run a sequence of render operations, collecting the draw events. -/
def renderOps (st : PdfState) : List RenderOp → List DrawEvent
  | [] => []
  | .line txt gap :: rest =>
    let (st', ev) := lineStep st txt gap
    ev :: renderOps st' rest
  | .space d :: rest => renderOps { st with y := st.y - d } rest

/-- The initial cursor of `workout_plan_json_to_pdf_bytes`:
`y = H - 1.6 * cm` on the first page. -/
def initPdfState : PdfState := ⟨pageH - 1.6 * cmPt, 0⟩

/-- The renderer as observed through its draw calls: run the plan-derived
operation sequence from the initial cursor. -/
def renderWorkoutPdf (ops : List RenderOp) : List DrawEvent :=
  renderOps initPdfState ops

/-! ## Shared lemmas -/

lemma pyInt_of_nonneg {q : ℚ} (h : 0 ≤ q) : pyInt q = ⌊q⌋ := by
  rw [pyInt, if_neg (not_lt.mpr h)]

lemma pyInt_nonneg {q : ℚ} (h : 0 ≤ q) : 0 ≤ pyInt q := by
  rw [pyInt_of_nonneg h]
  exact Int.floor_nonneg.mpr h

lemma pyInt_le {q : ℚ} (h : 0 ≤ q) : (pyInt q : ℚ) ≤ q := by
  rw [pyInt_of_nonneg h]
  exact Int.floor_le q

lemma lt_pyInt_add_one {q : ℚ} (h : 0 ≤ q) : q - 1 < (pyInt q : ℚ) := by
  rw [pyInt_of_nonneg h]
  have := Int.lt_floor_add_one q
  linarith

lemma mapOrErr_ok_of {α β : Type} (f : α → Except String β) (g : α → β)
    (l : List α) (h : ∀ x ∈ l, f x = .ok (g x)) :
    mapOrErr f l = .ok (l.map g) := by
  induction l with
  | nil => rfl
  | cons x xs ih =>
    rw [mapOrErr, h x (by simp), ih (fun y hy => h y (by simp [hy])),
      List.map_cons]

lemma sum_map_pyInt_le (l : List ℚ) (h : ∀ q ∈ l, 0 ≤ q) :
    ((l.map pyInt).sum : ℚ) ≤ l.sum := by
  induction l with
  | nil => simp
  | cons q qs ih =>
    have h1 := pyInt_le (h q (by simp))
    have h2 := ih fun x hx => h x (by simp [hx])
    simp only [List.map_cons, List.sum_cons, Int.cast_add]
    exact add_le_add h1 h2

lemma sum_sub_length_lt_sum_map_pyInt (l : List ℚ) (h : ∀ q ∈ l, 0 ≤ q)
    (hne : l ≠ []) : l.sum - l.length < ((l.map pyInt).sum : ℚ) := by
  induction l with
  | nil => exact absurd rfl hne
  | cons q qs ih =>
    have h1 := lt_pyInt_add_one (h q (by simp))
    simp only [List.map_cons, List.sum_cons, List.length_cons, Int.cast_add,
      Nat.cast_add, Nat.cast_one]
    rcases eq_or_ne qs [] with rfl | hqs
    · simp only [List.map_nil, List.sum_nil, List.length_nil, Int.cast_zero,
        Nat.cast_zero]
      linarith
    · have h2 := ih (fun x hx => h x (by simp [hx])) hqs
      linarith [sum_map_pyInt_le qs fun x hx => h x (by simp [hx])]

lemma listSumIntCast (l : List ℤ) :
    ((l.sum : ℤ) : ℚ) = (l.map fun z : ℤ => (z : ℚ)).sum := by
  induction l with
  | nil => simp
  | cons x xs ih => simp [ih]

/-! ## Claim C2: versioned save (`generate_and_save_weekly_meal_plan`) -/

lemma deactivate_untouched (db : List MealPlanRecord) (uid : ℤ)
    (h : ∀ r ∈ db, r.user_id ≠ uid) :
    (db.map fun r =>
      if r.user_id = uid then { r with is_active := false } else r) = db := by
  have heq : (db.map fun r =>
      if r.user_id = uid then { r with is_active := false } else r) =
      db.map id :=
    List.map_congr_left fun r hr => by rw [if_neg (h r hr)]; rfl
  simpa using heq

lemma filter_uid_nil (db : List MealPlanRecord) (uid : ℤ)
    (h : ∀ r ∈ db, r.user_id ≠ uid) :
    db.filter (fun r => r.user_id = uid) = [] := by
  induction db with
  | nil => rfl
  | cons r rest ih =>
    rw [List.filter_cons, if_neg (by simpa using h r (by simp))]
    exact ih fun x hx => h x (by simp [hx])

/-- C2 counterexample: calling the save operation of
`generate_and_save_weekly_meal_plan` twice for the same user leaves two rows
whose version numbers are both `1` (the row is always inserted with
`version=1`), not `1` and `2` as the claim states. -/
theorem save_twice_versions_counterexample :
    (save_weekly_meal_plan (save_weekly_meal_plan [] 7 "plan-1") 7
        "plan-2").map MealPlanRecord.version = [1, 1] ∧
      ([1, 1] : List ℤ) ≠ [1, 2] := by
  constructor
  · rfl
  · decide

/-- C2 (amended): starting from a database holding no rows for the user, two
sequential saves leave exactly two rows for that user; only the second is
active, and both carry version number `1` (the insert hard-codes
`version=1`; no `max(existing)+1` logic exists). -/
theorem save_twice_one_active_versions_one (db : List MealPlanRecord)
    (uid : ℤ) (p1 p2 : String) (h : ∀ r ∈ db, r.user_id ≠ uid) :
    ((save_weekly_meal_plan (save_weekly_meal_plan db uid p1) uid p2).filter
        (fun r => r.user_id = uid)).map
        (fun r => (r.is_active, r.version, r.plan_json)) =
      [(false, 1, p1), (true, 1, p2)] := by
  simp only [save_weekly_meal_plan, deactivate_untouched db uid h,
    List.map_append, List.filter_append, List.map_cons, List.map_nil,
    deactivate_untouched db uid h, filter_uid_nil db uid h]
  simp

/-- C2 witness: the amended statement at a concrete database. -/
theorem save_twice_one_active_versions_one_witness :
    ((save_weekly_meal_plan (save_weekly_meal_plan [] 3 "a") 3 "b").filter
        (fun r => r.user_id = 3)).map
        (fun r => (r.is_active, r.version, r.plan_json)) =
      [(false, 1, "a"), (true, 1, "b")] :=
  save_twice_one_active_versions_one [] 3 "a" "b" (by simp)

/-! ## Claim C8: PDF pagination invariant -/

lemma renderOps_inv (ops : List RenderOp) :
    ∀ st, ∀ ev ∈ renderOps st ops, 2 * cmPt ≤ ev.y ∧ ev.text.length ≤ 1200 := by
  induction ops with
  | nil => intro st ev hev; simp [renderOps] at hev
  | cons op rest ih =>
    intro st ev hev
    match op with
    | .space d => exact ih _ ev hev
    | .line txt gap =>
      rw [renderOps] at hev
      rcases (List.mem_cons).mp hev with rfl | htail
      · constructor
        · show 2 * cmPt ≤ (lineStep st txt gap).2.y
          rw [lineStep]
          rcases lt_or_le st.y (2 * cmPt) with hlt | hle
          · rw [if_pos hlt]
            show 2 * cmPt ≤ pageH - 1.6 * cmPt
            rw [pageH, cmPt]
            norm_num
          · rw [if_neg (not_lt.mpr hle)]
            exact hle
        · show ((lineStep st txt gap).2.text).length ≤ 1200
          rw [lineStep]
          have hlen : (pyTrunc txt 1200).length ≤ 1200 := by
            show (txt.data.take 1200).length ≤ 1200
            rw [List.length_take]
            exact min_le_left _ _
          split
          all_goals exact hlen
      · exact ih _ ev htail

/-- C8: every `c.drawString` issued by the renderer's `line` helper happens
with the vertical cursor at or above the 2 cm bottom margin — when the
cursor has fallen below it, a new page is started and the cursor reset to
the top margin `H - 1.6*cm` before drawing — and every drawn line's text is
truncated to at most 1200 characters. -/
theorem render_draws_above_margin_truncated (ops : List RenderOp)
    (ev : DrawEvent) (hev : ev ∈ renderWorkoutPdf ops) :
    2 * cmPt ≤ ev.y ∧ ev.text.length ≤ 1200 :=
  renderOps_inv ops initPdfState ev hev

unseal Rat.inv Rat.mul Rat.add Rat.sub Rat.ofScientific in
/-- C8 witness: the header line of a tiny render sequence is drawn at the
top margin, above the bottom margin. -/
theorem render_draws_above_margin_truncated_witness :
    2 * cmPt ≤ (DrawEvent.mk 0 (pageH - 1.6 * cmPt) "Workout Plan (Week 1)").y ∧
      (DrawEvent.mk 0 (pageH - 1.6 * cmPt) "Workout Plan (Week 1)").text.length ≤ 1200 :=
  render_draws_above_margin_truncated
    [.line "Workout Plan (Week 1)" (0.8 * cmPt)]
    (DrawEvent.mk 0 (pageH - 1.6 * cmPt) "Workout Plan (Week 1)")
    (by decide)

/-! ## Claim C6: ingredient selection respects dislikes and allergies -/

/-- C6: for every catalog slice and every dislike/allergy set, the
ingredient selection never keeps an item whose name case-insensitively
equals a disliked food, nor one whose name case-insensitively contains an
allergy token as a substring; the selection is a subsequence of the catalog
slice (order preserved) and has at most 5 items. -/
theorem filterIngredients_spec (items : List (String × String))
    (dislikes allergies : List String) (ing : Ingredient)
    (h : ing ∈ filterIngredients items dislikes allergies) :
    strLower ing.name ∉ dislikes.map strLower ∧
      (∀ a ∈ allergies, ¬ strLower a <:+: strLower ing.name) ∧
      ((filterIngredients items dislikes allergies).map
        (fun i => (i.name, i.amount))).Sublist items ∧
      (filterIngredients items dislikes allergies).length ≤ 5 := by
  have hmem : ing ∈ (items.filter (keepIngredient dislikes allergies)).map
      (fun p => Ingredient.mk p.1 p.2) :=
    List.mem_of_mem_take (by simpa [filterIngredients] using h)
  obtain ⟨p, hp, rfl⟩ := List.mem_map.mp hmem
  have hkeep : keepIngredient dislikes allergies p = true :=
    (List.mem_filter.mp hp).2
  rw [keepIngredient, Bool.and_eq_true] at hkeep
  obtain ⟨hd, ha⟩ := hkeep
  refine ⟨?_, ?_, ?_, ?_⟩
  · simp only [Bool.not_eq_true', decide_eq_false_iff_not] at hd
    exact hd
  · intro a haa
    have := (Bool.not_eq_true' _).mp ha
    rw [List.any_eq_false] at this
    simpa using this a haa
  · have hmap : (filterIngredients items dislikes allergies).map
        (fun i => (i.name, i.amount)) =
        (items.filter (keepIngredient dislikes allergies)).take 5 := by
      rw [filterIngredients, ← List.map_take, List.map_map]
      have : ((fun i : Ingredient => (i.name, i.amount)) ∘
          fun p : String × String => Ingredient.mk p.1 p.2) = id := by
        funext q
        rfl
      rw [this, List.map_id]
    rw [hmap]
    exact (List.take_sublist _ _).trans (List.filter_sublist _)
  · rw [filterIngredients]
    simp [Nat.min_le_left]

/-- C6 witness: with the Breakfast catalog slice, dislikes `{"eggs"}` and
allergies `{"nut"}`, the kept item `Whole grain bread` matches no dislike
and contains no allergy token; order and size bounds hold. -/
theorem filterIngredients_spec_witness :
    strLower (Ingredient.mk "Whole grain bread" "2 slices").name ∉
        ["eggs"].map strLower ∧
      (∀ a ∈ ["nut"],
        ¬ strLower a <:+:
          strLower (Ingredient.mk "Whole grain bread" "2 slices").name) ∧
      ((filterIngredients
          [("Eggs", "2 pieces"), ("Whole grain bread", "2 slices"),
           ("Greek yogurt", "150g")] ["eggs"] ["nut"]).map
        (fun i => (i.name, i.amount))).Sublist
        [("Eggs", "2 pieces"), ("Whole grain bread", "2 slices"),
         ("Greek yogurt", "150g")] ∧
      (filterIngredients
        [("Eggs", "2 pieces"), ("Whole grain bread", "2 slices"),
         ("Greek yogurt", "150g")] ["eggs"] ["nut"]).length ≤ 5 :=
  filterIngredients_spec
    [("Eggs", "2 pieces"), ("Whole grain bread", "2 slices"),
     ("Greek yogurt", "150g")] ["eggs"] ["nut"]
    (Ingredient.mk "Whole grain bread" "2 slices") (by decide)

/-! ## Claim C4: shopping-list amount merge -/

/-- C4 failing input: a single day whose single meal uses `Eggs, 2 pieces`
once.  Exactly one amount is observed for `Eggs`, yet the generated
shopping list shows the placeholder `"1x"` instead of the single observed
amount `"2 pieces"`: the source's `"1x" if len(amounts) > 0 else amounts[0]`
tests `> 0` where the (dead) `else amounts[0]` branch shows `> 1` was
intended. -/
theorem shopping_list_single_amount_collapsed :
    collectIngredients
        [DayPlan.mk 1 2000 150 200 60 500 30 40 20
          [Meal.mk "Breakfast Option 1" "Breakfast" 500 30 40 20
            [Ingredient.mk "Eggs" "2 pieces"] [] none]] =
      [("Eggs", ["2 pieces"])] ∧
    generate_shopping_list
        [DayPlan.mk 1 2000 150 200 60 500 30 40 20
          [Meal.mk "Breakfast Option 1" "Breakfast" 500 30 40 20
            [Ingredient.mk "Eggs" "2 pieces"] [] none]]
        (MealPlanPreferences.mk 3 "quick" "Balanced" "International"
          [] [] [] "") =
      [ShoppingListCategory.mk "Protein" [ShoppingListItem.mk "Eggs" "1x"]] ∧
    "1x" ≠ "2 pieces" := by
  refine ⟨rfl, rfl, by decide⟩

/-! ## Claim C5: external-plan validator -/

/-- What the exercise check enforces, as a statement. -/
def ExerciseShape (ex : Json) : Prop :=
  ∃ subs, ex.getArr? "substitutions" = some subs ∧ 2 ≤ subs.length

/-- What the day check enforces, as a statement. -/
def DayShape (day : Json) : Prop :=
  ∃ exs, day.getArr? "exercises" = some exs ∧ exs ≠ [] ∧
    ∀ ex ∈ exs, ExerciseShape ex

lemma getArr?_eq_some {j : Json} {key : String} {l : List Json}
    (h : j.getArr? key = some l) : j.get? key = some (.arr l) := by
  rw [Json.getArr?] at h
  split at h
  · rename_i heq
    rw [heq, Option.some_inj.mp h]
  · exact Option.noConfusion h

lemma validateExercises_ok {exs : List Json}
    (h : validateExercises exs = .ok ()) : ∀ ex ∈ exs, ExerciseShape ex := by
  induction exs with
  | nil => intro ex hex; simp at hex
  | cons e rest ih =>
    intro ex hex
    have key : ExerciseShape e ∧ validateExercises rest = .ok () := by
      rw [validateExercises] at h
      split at h
      all_goals try simp at h
      split at h
      all_goals try simp at h
      split at h
      all_goals try simp at h
      rename_i subs heq hlen
      exact ⟨⟨subs, heq, by omega⟩, h⟩
    rcases List.mem_cons.mp hex with rfl | htail
    · exact key.1
    · exact ih key.2 ex htail

lemma validateDays_ok {days : List Json} (h : validateDays days = .ok ()) :
    ∀ day ∈ days, DayShape day := by
  induction days with
  | nil => intro d hd; simp at hd
  | cons d rest ih =>
    intro day hday
    have key : DayShape d ∧ validateDays rest = .ok () := by
      rw [validateDays] at h
      split at h
      all_goals try simp at h
      split at h
      all_goals try simp at h
      split at h
      all_goals try simp at h
      split at h
      all_goals try simp at h
      rename_i exercises heq hne hx hex
      exact ⟨⟨exercises, heq, by simpa using hne, validateExercises_ok hex⟩, h⟩
    rcases List.mem_cons.mp hday with rfl | htail
    · exact key.1
    · exact ih key.2 day htail

lemma schema_min_validate_ok {plan : Json}
    (h : schema_min_validate plan = .ok ()) :
    gateDays plan ≠ [] ∧ ∀ day ∈ gateDays plan, DayShape day := by
  rw [schema_min_validate] at h
  split at h
  all_goals try simp at h
  split at h
  all_goals try simp at h
  split at h
  all_goals try simp at h
  rename_i week hweeks
  split at h
  all_goals try simp at h
  split at h
  all_goals try simp at h
  rename_i days hdays
  split at h
  all_goals try simp at h
  rename_i hne
  have hne2 : days ≠ [] := by simpa using hne
  have hgate : gateDays plan = days := by
    have hgw : jsonGetOr plan "weeks" (.arr [.obj []]) = .arr [week] := by
      rw [jsonGetOr, getArr?_eq_some hweeks]
      simp [Json.truthy]
    have hgd : jsonGetOr week "days" (.arr []) = .arr days := by
      rcases days with _ | ⟨d0, ds⟩
      · exact absurd rfl hne2
      · rw [jsonGetOr, getArr?_eq_some hdays]
        simp [Json.truthy]
    rw [gateDays, hgw]
    show (match jsonGetOr week "days" (Json.arr []) with
      | Json.arr ds => ds
      | _ => ([] : List Json)) = days
    rw [hgd]
  rw [hgate]
  exact ⟨hne2, validateDays_ok h⟩

/-- A minimal well-formed candidate: one week, `week_number = 1`, one day
with one exercise carrying two substitutions. -/
def minimalWorkoutPlan : Json :=
  .obj
    [("meta", .obj []),
     ("weeks", .arr
       [.obj
         [("week_number", .num 1),
          ("days", .arr
            [.obj
              [("exercises", .arr
                [.obj
                  [("substitutions",
                    .arr [.str "Alt A", .str "Alt B"])]])]])]])]

/-- C5: the validation gate of `generate_weekly_workout_plan`
(`_schema_min_validate` plus the day-count check) only accepts a candidate
whose day collection has exactly the requested length, whose every day has a
non-empty exercise list, and whose every exercise has at least 2
substitutions — so any candidate violating one of these is rejected — and
on success it passes the candidate through unchanged; the minimal
well-formed one-day candidate is accepted. -/
theorem validate_workout_plan_spec :
    (∀ plan n res, validate_workout_plan plan n = .ok res →
      res = plan ∧ (gateDays plan).length = n ∧ gateDays plan ≠ [] ∧
        ∀ day ∈ gateDays plan, DayShape day) ∧
    validate_workout_plan minimalWorkoutPlan 1 = .ok minimalWorkoutPlan := by
  constructor
  · intro plan n res h
    rw [validate_workout_plan] at h
    split at h
    · exact absurd h (by simp)
    · rename_i hschema
      split at h
      · exact absurd h (by simp)
      · rename_i hlen
        have hshape := schema_min_validate_ok hschema
        exact ⟨by simpa using h.symm, by simpa using hlen, hshape.1,
          hshape.2⟩
  · rfl

/-- C5 witness: the acceptance and shape facts at the minimal candidate. -/
theorem validate_workout_plan_spec_witness :
    minimalWorkoutPlan = minimalWorkoutPlan ∧
      (gateDays minimalWorkoutPlan).length = 1 ∧
      gateDays minimalWorkoutPlan ≠ [] ∧
      ∀ day ∈ gateDays minimalWorkoutPlan, DayShape day :=
  validate_workout_plan_spec.1 minimalWorkoutPlan 1 minimalWorkoutPlan
    validate_workout_plan_spec.2

/-! ## Meal-generator infrastructure lemmas -/

/-- The unnormalized meal list of `generate_single_day`. -/
def rawMealsOf (day_number : ℤ) (preferences : MealPlanPreferences)
    (targets : MealPlanTargets) (draws : ℕ → ℚ) : List Meal :=
  (mealTypesFor preferences.mealsPerDay).enum.map
    fun p => rawMeal day_number preferences targets draws p.1 p.2

/-- The `DayPlan` produced by `generate_single_day` when no division fails
(`mealsPerDay ≠ 0`). -/
def singleDayOf (day_number : ℤ) (preferences : MealPlanPreferences)
    (targets : MealPlanTargets) (draws : ℕ → ℚ) : DayPlan :=
  let rawMeals := rawMealsOf day_number preferences targets draws
  let total_calories := (rawMeals.map Meal.calories).sum
  if total_calories ≠ 0 then
    let scale_factor := (targets.calories : ℚ) / (total_calories : ℚ)
    let meals := rawMeals.map (scaleMeal scale_factor)
    { day := day_number
      targetCalories := targets.calories
      targetProtein := targets.protein
      targetCarbs := targets.carbs
      targetFat := targets.fat
      actualCalories := (meals.map Meal.calories).sum
      actualProtein := (meals.map Meal.protein).sum
      actualCarbs := (meals.map Meal.carbs).sum
      actualFat := (meals.map Meal.fat).sum
      meals := meals }
  else
    { day := day_number
      targetCalories := targets.calories
      targetProtein := targets.protein
      targetCarbs := targets.carbs
      targetFat := targets.fat
      actualCalories := total_calories
      actualProtein := (rawMeals.map Meal.protein).sum
      actualCarbs := (rawMeals.map Meal.carbs).sum
      actualFat := (rawMeals.map Meal.fat).sum
      meals := rawMeals }

lemma genRawMeal_ok {preferences : MealPlanPreferences}
    (h : preferences.mealsPerDay ≠ 0) (day_number : ℤ)
    (targets : MealPlanTargets) (draws : ℕ → ℚ) (i : ℕ) (meal_type : String) :
    genRawMeal day_number preferences targets draws i meal_type =
      .ok (rawMeal day_number preferences targets draws i meal_type) := by
  rw [genRawMeal, if_neg (by simpa using h)]
  rfl

lemma generate_single_day_ok {preferences : MealPlanPreferences}
    (h : preferences.mealsPerDay ≠ 0) (day_number : ℤ)
    (targets : MealPlanTargets) (draws : ℕ → ℚ) :
    generate_single_day day_number preferences targets draws =
      .ok (singleDayOf day_number preferences targets draws) := by
  have hmap : mapOrErr
      (fun p : ℕ × String =>
        genRawMeal day_number preferences targets draws p.1 p.2)
      (mealTypesFor preferences.mealsPerDay).enum =
      .ok ((mealTypesFor preferences.mealsPerDay).enum.map
        fun p => rawMeal day_number preferences targets draws p.1 p.2) :=
    mapOrErr_ok_of _ _ _
      (fun p _ => genRawMeal_ok h day_number targets draws p.1 p.2)
  rw [generate_single_day, hmap, singleDayOf, rawMealsOf]
  dsimp only
  split
  all_goals rfl

lemma singleDayOf_day (day_number : ℤ) (preferences : MealPlanPreferences)
    (targets : MealPlanTargets) (draws : ℕ → ℚ) :
    (singleDayOf day_number preferences targets draws).day = day_number := by
  rw [singleDayOf]
  split
  all_goals rfl

lemma singleDayOf_meals_length (day_number : ℤ)
    (preferences : MealPlanPreferences) (targets : MealPlanTargets)
    (draws : ℕ → ℚ) :
    (singleDayOf day_number preferences targets draws).meals.length =
      (mealTypesFor preferences.mealsPerDay).length := by
  rw [singleDayOf]
  split
  all_goals simp [rawMealsOf]

lemma mealTypesFor_length (m : ℤ) :
    ((mealTypesFor m).length : ℤ) = min 5 (max 3 m) := by
  rw [mealTypesFor]
  by_cases h4 : 4 ≤ m <;> by_cases h5 : 5 ≤ m <;> simp [h4, h5] <;> omega

lemma pyInt_zero : pyInt 0 = 0 := by
  rw [pyInt, if_neg (by norm_num)]
  simp

/-! ## Claim C9: generated slot count -/

/-- C9: the meal-type list of `generate_single_day` has length
`min(5, max(3, mealsPerDay))` — 3 for `mealsPerDay ≤ 3`, 4 at 4, capped at
5 from 5 on — and whenever generation succeeds (`mealsPerDay ≠ 0`, so the
per-meal division `target / mealsPerDay` is defined) the day's meal count
equals that same value, independent of how the per-meal shares divided by
`mealsPerDay`. -/
theorem generated_slot_count (preferences : MealPlanPreferences) :
    ((mealTypesFor preferences.mealsPerDay).length : ℤ) =
      min 5 (max 3 preferences.mealsPerDay) ∧
    ∀ day_number targets draws, preferences.mealsPerDay ≠ 0 →
      ∃ day, generate_single_day day_number preferences targets draws =
          .ok day ∧
        (day.meals.length : ℤ) = min 5 (max 3 preferences.mealsPerDay) := by
  refine ⟨mealTypesFor_length _, fun day_number targets draws h => ?_⟩
  refine ⟨singleDayOf day_number preferences targets draws,
    generate_single_day_ok h day_number targets draws, ?_⟩
  rw [singleDayOf_meals_length]
  exact mealTypesFor_length _

/-- C9 witness: with `mealsPerDay = 7` the slot count is capped at 5. -/
theorem generated_slot_count_witness :
    ((mealTypesFor (MealPlanPreferences.mk 7 "10-15" "Balanced" "Lebanese"
        [] [] [] "").mealsPerDay).length : ℤ) =
      min 5 (max 3 (MealPlanPreferences.mk 7 "10-15" "Balanced" "Lebanese"
        [] [] [] "").mealsPerDay) ∧
    ∃ day, generate_single_day 2
        (MealPlanPreferences.mk 7 "10-15" "Balanced" "Lebanese" [] [] [] "")
        (MealPlanTargets.mk 1800 120 180 50) (fun _ => 0) = .ok day ∧
      (day.meals.length : ℤ) =
        min 5 (max 3 (MealPlanPreferences.mk 7 "10-15" "Balanced" "Lebanese"
          [] [] [] "").mealsPerDay) :=
  ⟨(generated_slot_count _).1,
    (generated_slot_count _).2 2 (MealPlanTargets.mk 1800 120 180 50)
      (fun _ => 0) (by decide)⟩

/-! ## Claim C10: division by zero at mealsPerDay = 0 -/

/-- C10: with `mealsPerDay = 0` (which the request schema does not exclude:
`mealsPerDay: int` carries no bound) `generate_single_day` raises
`ZeroDivisionError` at the per-meal share computation
`targets.calories / preferences.mealsPerDay`; with `mealsPerDay ≥ 1` every
division has a nonzero divisor and generation succeeds. -/
theorem division_by_zero_at_zero_meals (day_number : ℤ)
    (preferences : MealPlanPreferences) (targets : MealPlanTargets)
    (draws : ℕ → ℚ) :
    (preferences.mealsPerDay = 0 →
      generate_single_day day_number preferences targets draws =
        .error "ZeroDivisionError: division by zero") ∧
    (1 ≤ preferences.mealsPerDay →
      ∃ day, generate_single_day day_number preferences targets draws =
        .ok day) := by
  constructor
  · intro hm
    have hmt : mealTypesFor preferences.mealsPerDay =
        ["Breakfast", "Lunch", "Dinner"] := by
      rw [mealTypesFor, hm]
      rfl
    rw [generate_single_day, hmt]
    rw [show (["Breakfast", "Lunch", "Dinner"] : List String).enum =
      [(0, "Breakfast"), (1, "Lunch"), (2, "Dinner")] from rfl]
    rw [mapOrErr]
    rw [show genRawMeal day_number preferences targets draws
        ((0 : ℕ), "Breakfast").1 ((0 : ℕ), "Breakfast").2 =
        .error "ZeroDivisionError: division by zero" from by
      rw [genRawMeal, if_pos (by simp [hm])]]
  · intro hm
    exact ⟨singleDayOf day_number preferences targets draws,
      generate_single_day_ok (by omega) day_number targets draws⟩

/-- C10 witness: at `mealsPerDay = 0` the error is raised; at
`mealsPerDay = 3` generation succeeds. -/
theorem division_by_zero_at_zero_meals_witness :
    generate_single_day 1
        (MealPlanPreferences.mk 0 "10-15" "Balanced" "Lebanese" [] [] [] "")
        (MealPlanTargets.mk 2000 150 200 60) (fun _ => 0) =
      .error "ZeroDivisionError: division by zero" ∧
    ∃ day, generate_single_day 1
        (MealPlanPreferences.mk 3 "10-15" "Balanced" "Lebanese" [] [] [] "")
        (MealPlanTargets.mk 2000 150 200 60) (fun _ => 0) = .ok day :=
  ⟨(division_by_zero_at_zero_meals 1
      (MealPlanPreferences.mk 0 "10-15" "Balanced" "Lebanese" [] [] [] "")
      (MealPlanTargets.mk 2000 150 200 60) (fun _ => 0)).1 rfl,
    (division_by_zero_at_zero_meals 1
      (MealPlanPreferences.mk 3 "10-15" "Balanced" "Lebanese" [] [] [] "")
      (MealPlanTargets.mk 2000 150 200 60) (fun _ => 0)).2 (by decide)⟩

/-! ## Claim C7: zero calorie target is safe -/

/-- C7: with `mealsPerDay ≥ 1` and `targets.calories = 0`, every generated
meal has zero calories, the summed calories are zero, so the normalization
pass is skipped (no division by the zero calorie total) and the
unnormalized meal list is returned unchanged. -/
theorem zero_calorie_target_safe (day_number : ℤ)
    (preferences : MealPlanPreferences) (targets : MealPlanTargets)
    (draws : ℕ → ℚ) (hm : 1 ≤ preferences.mealsPerDay)
    (hc : targets.calories = 0) :
    ∃ day, generate_single_day day_number preferences targets draws =
        .ok day ∧
      day.meals = rawMealsOf day_number preferences targets draws ∧
      (∀ m ∈ day.meals, m.calories = 0) ∧
      day.actualCalories = 0 := by
  have hm0 : preferences.mealsPerDay ≠ 0 := by omega
  have hcal : ∀ m ∈ rawMealsOf day_number preferences targets draws,
      m.calories = 0 := by
    intro m hmem
    obtain ⟨p, _, rfl⟩ := List.mem_map.mp hmem
    rw [rawMeal]
    show pyInt ((targets.calories : ℚ) / (preferences.mealsPerDay : ℚ) *
      (1 + draws (4 * p.1))) = 0
    rw [hc]
    norm_num [pyInt_zero]
  have htot : ((rawMealsOf day_number preferences targets draws).map
      Meal.calories).sum = 0 :=
    List.sum_eq_zero fun x hx => by
      obtain ⟨m, hmem, rfl⟩ := List.mem_map.mp hx
      exact hcal m hmem
  have hday : singleDayOf day_number preferences targets draws =
      { day := day_number
        targetCalories := targets.calories
        targetProtein := targets.protein
        targetCarbs := targets.carbs
        targetFat := targets.fat
        actualCalories := 0
        actualProtein := ((rawMealsOf day_number preferences targets
          draws).map Meal.protein).sum
        actualCarbs := ((rawMealsOf day_number preferences targets
          draws).map Meal.carbs).sum
        actualFat := ((rawMealsOf day_number preferences targets
          draws).map Meal.fat).sum
        meals := rawMealsOf day_number preferences targets draws } := by
    rw [singleDayOf]
    rw [if_neg (by simp [htot])]
    rw [htot]
  refine ⟨singleDayOf day_number preferences targets draws,
    generate_single_day_ok hm0 day_number targets draws, ?_, ?_, ?_⟩
  · rw [hday]
  · rw [hday]
    exact hcal
  · rw [hday]

/-- C7 witness: zero targets at `mealsPerDay = 4`. -/
theorem zero_calorie_target_safe_witness :
    ∃ day, generate_single_day 3
        (MealPlanPreferences.mk 4 "20-30" "Balanced" "International"
          [] [] [] "") (MealPlanTargets.mk 0 100 100 40) (fun _ => 0) =
        .ok day ∧
      day.meals = rawMealsOf 3
        (MealPlanPreferences.mk 4 "20-30" "Balanced" "International"
          [] [] [] "") (MealPlanTargets.mk 0 100 100 40) (fun _ => 0) ∧
      (∀ m ∈ day.meals, m.calories = 0) ∧
      day.actualCalories = 0 :=
  zero_calorie_target_safe 3
    (MealPlanPreferences.mk 4 "20-30" "Balanced" "International" [] [] [] "")
    (MealPlanTargets.mk 0 100 100 40) (fun _ => 0) (by decide) rfl

/-! ## Claim C3: plan duration -/

lemma generate_meal_plan_ok {preferences : MealPlanPreferences}
    (h : preferences.mealsPerDay ≠ 0) (targets : MealPlanTargets)
    (duration : ℕ) (dayDraws : ℕ → ℕ → ℚ) (now : String) :
    generate_meal_plan preferences targets duration dayDraws now =
      .ok
        { preferences := preferences
          days := (List.range' 1 duration).map
            fun n : ℕ => singleDayOf (n : ℤ) preferences targets (dayDraws n)
          shoppingList := generate_shopping_list
            ((List.range' 1 duration).map
              fun n : ℕ => singleDayOf (n : ℤ) preferences targets (dayDraws n))
            preferences
          generatedAt := now } := by
  have hmap : mapOrErr
      (fun day_num : ℕ =>
        generate_single_day (day_num : ℤ) preferences targets
          (dayDraws day_num))
      (List.range' 1 duration) =
      .ok ((List.range' 1 duration).map
        fun n : ℕ => singleDayOf (n : ℤ) preferences targets (dayDraws n)) :=
    mapOrErr_ok_of _ _ _
      (fun n _ => generate_single_day_ok h (n : ℤ) targets (dayDraws n))
  rw [generate_meal_plan, hmap]

/-- C3 counterexample: a generate request may carry any `duration`
(`MealPlanGenerateRequest.duration: int = 7` is only a default, and the
endpoint passes `request.duration` through), and with `duration = 5` the
generated plan has 5 days, not 7. -/
theorem meal_plan_five_day_counterexample :
    ∃ mp, generate_meal_plan
        (MealPlanPreferences.mk 3 "20-30" "Balanced" "International"
          [] [] [] "")
        (MealPlanTargets.mk 2000 150 200 60) 5 (fun _ _ => 0)
        "2026-01-01T00:00:00" = .ok mp ∧
      mp.days.length = 5 ∧ ¬ mp.days.length = 7 := by
  refine ⟨_, generate_meal_plan_ok (by decide)
    (MealPlanTargets.mk 2000 150 200 60) 5 (fun _ _ => 0)
    "2026-01-01T00:00:00", ?_, ?_⟩
  · simp
  · simp

/-- C3 (amended): the generated plan's day sequence has length exactly the
requested `duration` (the schema default is 7, so a default request yields
7 days) with day indices `1 .. duration` in order, whenever generation
succeeds (`mealsPerDay ≠ 0`). -/
theorem generate_meal_plan_day_count (preferences : MealPlanPreferences)
    (targets : MealPlanTargets) (duration : ℕ) (dayDraws : ℕ → ℕ → ℚ)
    (now : String) (h : preferences.mealsPerDay ≠ 0) :
    ∃ mp, generate_meal_plan preferences targets duration dayDraws now =
        .ok mp ∧
      mp.days.length = duration ∧
      mp.days.map DayPlan.day =
        (List.range' 1 duration).map (fun n : ℕ => (n : ℤ)) := by
  refine ⟨_, generate_meal_plan_ok h targets duration dayDraws now, ?_, ?_⟩
  · simp
  · rw [List.map_map]
    exact List.map_congr_left fun (n : ℕ) _ =>
      singleDayOf_day (n : ℤ) preferences targets (dayDraws n)

/-- C3 witness: the amended statement at the default duration 7. -/
theorem generate_meal_plan_day_count_witness :
    ∃ mp, generate_meal_plan
        (MealPlanPreferences.mk 3 "20-30" "Balanced" "International"
          [] [] [] "")
        (MealPlanTargets.mk 2000 150 200 60) 7 (fun _ _ => 0)
        "2026-01-01T00:00:00" = .ok mp ∧
      mp.days.length = 7 ∧
      mp.days.map DayPlan.day =
        (List.range' 1 7).map (fun n : ℕ => (n : ℤ)) :=
  generate_meal_plan_day_count
    (MealPlanPreferences.mk 3 "20-30" "Balanced" "International" [] [] [] "")
    (MealPlanTargets.mk 2000 150 200 60) 7 (fun _ _ => 0)
    "2026-01-01T00:00:00" (by decide)

/-! ## Claim C1: normalization reconciliation -/

unseal Rat.inv Rat.mul Rat.add Rat.sub Rat.ofScientific in
/-- C1 counterexample: with `mealsPerDay = 3`, targets
`(2000, 150, 200, 60)` and legal uniform draws (calorie draw `-0.1`,
protein draw `+0.1`, carbs/fat draws `0`, all within `±0.1`), the
normalized day sums to 1998 calories (2 below target, beyond 1 unit of
drift) and 183 protein (33 above target): the normalization pass rescales
every macro by the calorie ratio only, and per-meal truncation loses up to
one unit per meal, so the per-macro sums do not reconcile to within 1
unit. -/
theorem normalization_drift_counterexample :
    (generate_single_day 1
        (MealPlanPreferences.mk 3 "20-30" "Balanced" "International"
          [] [] [] "")
        (MealPlanTargets.mk 2000 150 200 60)
        (fun n => if n % 4 = 0 then -1/10
          else if n % 4 = 1 then 1/10 else 0)).map
      (fun d => (d.actualCalories, d.actualProtein)) = .ok (1998, 183) ∧
    (∀ n : ℕ, -1/10 ≤ (if n % 4 = 0 then (-1 : ℚ)/10
        else if n % 4 = 1 then 1/10 else 0) ∧
      (if n % 4 = 0 then (-1 : ℚ)/10
        else if n % 4 = 1 then 1/10 else 0) ≤ 1/10) ∧
    1 < |(2000 : ℤ) - 1998| + 0 ∧ 1 < |(150 : ℤ) - 183| := by
  refine ⟨by decide, fun n => ?_, by decide, by decide⟩
  rcases (by omega : n % 4 = 0 ∨ n % 4 = 1 ∨ n % 4 = 2 ∨ n % 4 = 3) with
    h | h | h | h <;> simp [h] <;> norm_num

/-- C1 (amended): under legal uniform draws (each in `[-0.1, 0.1]`),
`mealsPerDay ≥ 1` and a nonnegative calorie target, the normalized day's
summed actual calories never exceed the calorie target and lie within
`mealCount` units below it (one truncation loss per meal) — unless the raw
calorie sum was zero, in which case normalization is skipped and the sum is
0.  No such reconciliation holds for protein, carbs or fat, which are
rescaled by the calorie ratio. -/
theorem normalization_calorie_reconciliation (day_number : ℤ)
    (preferences : MealPlanPreferences) (targets : MealPlanTargets)
    (draws : ℕ → ℚ) (hm : 1 ≤ preferences.mealsPerDay)
    (hc : 0 ≤ targets.calories)
    (hd : ∀ n, -1/10 ≤ draws n ∧ draws n ≤ 1/10) :
    ∃ day, generate_single_day day_number preferences targets draws =
        .ok day ∧
      day.actualCalories ≤ targets.calories ∧
      (targets.calories -
          ((mealTypesFor preferences.mealsPerDay).length : ℤ) <
            day.actualCalories ∨
        day.actualCalories = 0) := by
  have hm0 : preferences.mealsPerDay ≠ 0 := by omega
  suffices hs :
      (singleDayOf day_number preferences targets draws).actualCalories ≤
        targets.calories ∧
      (targets.calories -
          ((mealTypesFor preferences.mealsPerDay).length : ℤ) <
            (singleDayOf day_number preferences targets
              draws).actualCalories ∨
        (singleDayOf day_number preferences targets
          draws).actualCalories = 0) by
    exact ⟨_, generate_single_day_ok hm0 day_number targets draws, hs.1,
      hs.2⟩
  have hrawnn : ∀ m ∈ rawMealsOf day_number preferences targets draws,
      0 ≤ m.calories := by
    intro m hmem
    rw [rawMealsOf] at hmem
    obtain ⟨p, _, rfl⟩ := List.mem_map.mp hmem
    rw [rawMeal]
    show 0 ≤ pyInt ((targets.calories : ℚ) / (preferences.mealsPerDay : ℚ) *
      (1 + draws (4 * p.1)))
    apply pyInt_nonneg
    apply mul_nonneg
    · apply div_nonneg
      · exact_mod_cast hc
      · exact_mod_cast (by omega : (0 : ℤ) ≤ preferences.mealsPerDay)
    · have := (hd (4 * p.1)).1
      linarith
  have htotnn : 0 ≤ ((rawMealsOf day_number preferences targets draws).map
      Meal.calories).sum := by
    apply List.sum_nonneg
    intro x hx
    obtain ⟨m, hmem, rfl⟩ := List.mem_map.mp hx
    exact hrawnn m hmem
  by_cases hzero : ((rawMealsOf day_number preferences targets draws).map
      Meal.calories).sum = 0
  · have hday : (singleDayOf day_number preferences targets
        draws).actualCalories = 0 := by
      rw [singleDayOf, if_neg (by simp [hzero])]
      exact hzero
    rw [hday]
    exact ⟨hc, Or.inr rfl⟩
  · have htotpos : 0 < ((rawMealsOf day_number preferences targets
        draws).map Meal.calories).sum :=
      lt_of_le_of_ne htotnn (Ne.symm hzero)
    have htotq : ((((rawMealsOf day_number preferences targets draws).map
        Meal.calories).sum : ℤ) : ℚ) ≠ 0 := by
      exact_mod_cast hzero
    have hAC : (singleDayOf day_number preferences targets
        draws).actualCalories =
        (((rawMealsOf day_number preferences targets draws).map
          (fun m => (m.calories : ℚ) * ((targets.calories : ℚ) /
            ((((rawMealsOf day_number preferences targets draws).map
              Meal.calories).sum : ℤ) : ℚ)))).map pyInt).sum := by
      rw [singleDayOf, if_pos (by simpa using hzero)]
      dsimp only
      rw [List.map_map, List.map_map]
      rfl
    rw [hAC]
    have hl_nonneg : ∀ q ∈ (rawMealsOf day_number preferences targets
        draws).map (fun m => (m.calories : ℚ) * ((targets.calories : ℚ) /
          ((((rawMealsOf day_number preferences targets draws).map
            Meal.calories).sum : ℤ) : ℚ))), 0 ≤ q := by
      intro q hq
      obtain ⟨m, hmem, rfl⟩ := List.mem_map.mp hq
      apply mul_nonneg
      · exact_mod_cast hrawnn m hmem
      · apply div_nonneg
        · exact_mod_cast hc
        · exact_mod_cast le_of_lt htotpos
    have hlsum : ((rawMealsOf day_number preferences targets draws).map
        (fun m => (m.calories : ℚ) * ((targets.calories : ℚ) /
          ((((rawMealsOf day_number preferences targets draws).map
            Meal.calories).sum : ℤ) : ℚ)))).sum =
        (targets.calories : ℚ) := by
      rw [List.sum_map_mul_right]
      rw [show (rawMealsOf day_number preferences targets draws).map
          (fun m => (m.calories : ℚ)) =
          ((rawMealsOf day_number preferences targets draws).map
            Meal.calories).map (fun z : ℤ => (z : ℚ)) from by
        rw [List.map_map]
        rfl]
      rw [← listSumIntCast]
      rw [mul_comm, div_mul_cancel₀ _ htotq]
    have hlen : ((rawMealsOf day_number preferences targets draws).map
        (fun m => (m.calories : ℚ) * ((targets.calories : ℚ) /
          ((((rawMealsOf day_number preferences targets draws).map
            Meal.calories).sum : ℤ) : ℚ)))).length =
        (mealTypesFor preferences.mealsPerDay).length := by
      simp [rawMealsOf]
    have hlne : (rawMealsOf day_number preferences targets draws).map
        (fun m => (m.calories : ℚ) * ((targets.calories : ℚ) /
          ((((rawMealsOf day_number preferences targets draws).map
            Meal.calories).sum : ℤ) : ℚ))) ≠ [] := by
      apply List.ne_nil_of_length_pos
      rw [hlen, mealTypesFor]
      simp
    have hub := sum_map_pyInt_le _ hl_nonneg
    have hlb := sum_sub_length_lt_sum_map_pyInt _ hl_nonneg hlne
    rw [hlsum] at hub
    rw [hlsum, hlen] at hlb
    constructor
    · exact_mod_cast hub
    · left
      exact_mod_cast hlb

/-- C1 witness: the amended reconciliation at concrete inputs (zero
draws). -/
theorem normalization_calorie_reconciliation_witness :
    ∃ day, generate_single_day 1
        (MealPlanPreferences.mk 3 "20-30" "Balanced" "International"
          [] [] [] "")
        (MealPlanTargets.mk 2000 150 200 60) (fun _ => 0) = .ok day ∧
      day.actualCalories ≤ 2000 ∧
      (2000 - ((mealTypesFor (3 : ℤ)).length : ℤ) < day.actualCalories ∨
        day.actualCalories = 0) :=
  normalization_calorie_reconciliation 1
    (MealPlanPreferences.mk 3 "20-30" "Balanced" "International" [] [] [] "")
    (MealPlanTargets.mk 2000 150 200 60) (fun _ => 0) (by decide) (by decide)
    (fun n => ⟨by simp [neg_div], by simp⟩)

end FitnessApp
